import Mathlib

/-!
Verification of the Gena entitlement-and-context engine.

Shallow embedding of the python sources `src/database.py`, `src/gena.py`,
`src/personas.py`, `src/telebot.py` and `nlu.py`.  Timestamps are modelled
as integers (the python code stores ISO strings and compares the parsed
`datetime` values, so any order-isomorphic embedding is faithful); database
rows keyed by one account are modelled as per-account records, since every
query involved filters on a single `user_id`.
-/

namespace Gena

/-! ### Persistence model: per-account rows -/

/-- One row of the `plans` table for a fixed account: the stored tier name
and the optional expiry timestamp (`NULL`/empty modelled as `none`). -/
structure PlansRow where
  plan : String
  expiration : Option Int
deriving DecidableEq, Repr

/-- One row of the `usage` table for a fixed account (the rate-limit part):
stored minute window key (`NULL` modelled as `none`) and counter. -/
structure UsageRow where
  rate_limit_minute : Option String
  rate_limit_count : Int
deriving DecidableEq, Repr

/-- One row of the `messages` table for a fixed account (fields the claims
need).  The log is kept in insertion order; `created_at` is monotone in the
insertion order, so `ORDER BY created_at DESC` reads the list in reverse. -/
structure MessageRow where
  role : String
  content : String
deriving DecidableEq, Repr


/-! ### Python string primitives

Char-list implementations of the python string operations used by the code
(`str.strip`, `str.lower`, `str.startswith`, splitting on a newline), chosen
over the `Substring`-based core functions so that every definition evaluates
by kernel reduction. -/

/-- Embedding of `str.strip()`: drop whitespace from both ends. -/
def pyStrip (s : String) : String :=
  String.mk (((s.toList.dropWhile Char.isWhitespace).reverse.dropWhile
    Char.isWhitespace).reverse)

/-- Embedding of `str.lower()`. -/
def pyLower (s : String) : String :=
  String.mk (s.toList.map Char.toLower)

/-- Embedding of `str.startswith(pre)`. -/
def pyStartsWith (pre s : String) : Bool :=
  pre.toList.isPrefixOf s.toList

/-- Split a character list at newline characters (the segments `.` can span
in a python regex). -/
def splitLinesAux : List Char → List Char → List (List Char)
  | [], acc => [acc.reverse]
  | c :: rest, acc =>
    if c = '\n' then acc.reverse :: splitLinesAux rest []
    else splitLinesAux rest (c :: acc)

/-- The lines of a string, split on `'\n'`. -/
def splitLines (s : String) : List (List Char) :=
  splitLinesAux s.toList []

/-! ### `DatabaseManager.get_user_plan` / `set_user_plan` (database.py) -/

/-- Embedding of `DatabaseManager.set_user_plan`: `UPDATE plans SET plan = ?, expiration = ?
WHERE user_id = ?` — rewrites the account's row when it exists, no insert. -/
def set_user_plan (row : Option PlansRow) (plan : String) (expiration : Option Int) :
    Option PlansRow :=
  row.map (fun _ => ⟨plan, expiration⟩)

/-- Embedding of `DatabaseManager.get_user_plan`: returns `'Free'` when the account has no
row; when the stored expiry is set and strictly in the past, rewrites the row
via `set_user_plan(user_id, 'Free')` (default `expiration=None`) and returns
`'Free'`; otherwise returns the stored plan.  The second component is the
account's `plans` row after the call. -/
def get_user_plan (row : Option PlansRow) (now : Int) : String × Option PlansRow :=
  match row with
  | none => ("Free", none)
  | some r =>
    match r.expiration with
    | some exp =>
      if exp < now then ("Free", set_user_plan (some r) "Free" none)
      else (r.plan, some r)
    | none => (r.plan, some r)

/-! ### Static tier tables (gena.py) -/

/-- The per-tier limits record of `PLAN_LIMITS`. -/
structure PlanLimits where
  rate : Int
  turns : Int
  images : Int
  context_turns : Nat
  custom_instruction : Bool
deriving DecidableEq, Repr

/-- Association-list lookup, the embedding of a python `dict` subscript /
`.get`: `none` models a `KeyError` on plain subscripting. -/
def assocGet {α : Type} (table : List (String × α)) (key : String) : Option α :=
  (table.find? (fun e => e.1 = key)).map (fun e => e.2)

/-- The `PLAN_LIMITS` table from gena.py. -/
def PLAN_LIMITS : List (String × PlanLimits) :=
  [("Free", ⟨5, 3, 3, 3, false⟩),
   ("Basic", ⟨10, 5, 5, 5, false⟩),
   ("Premium", ⟨20, 8, 10, 8, true⟩),
   ("VIP", ⟨30, 10, 20, 10, true⟩)]

/-- The `ALL_MODELS` table from gena.py. -/
def ALL_MODELS : List (String × List String) :=
  [("Free", ["gemini-2.5-flash"]),
   ("Basic", ["gemini-2.5-flash", "gemini-2.0-flash"]),
   ("Premium", ["gemini-2.5-flash", "gemini-2.0-flash", "gemini-1.5-pro"]),
   ("VIP", ["gemini-2.5-flash", "gemini-2.0-flash", "gemini-1.5-pro", "gemini-1.5-pro-exp"])]

/-- Embedding of `GenaCore.get_available_models`: `ALL_MODELS.get(plan, ALL_MODELS['Free'])`. -/
def get_available_models (plan : String) : List String :=
  match assocGet ALL_MODELS plan with
  | some ms => ms
  | none => (assocGet ALL_MODELS "Free").getD []

/-- The tier lookup inside `GenaCore.has_custom_instruction`:
`PLAN_LIMITS[plan]['custom_instruction']` — a plain subscript: `none` models
the `KeyError` raised on an unrecognized plan string. -/
def has_custom_instruction_flag (plan : String) : Option Bool :=
  (assocGet PLAN_LIMITS plan).map (fun l => l.custom_instruction)

/-! ### `GenaCore.upgrade_plan` (gena.py) -/

/-- Embedding of `datetime.now() + timedelta(days=duration_days)` with time as seconds. -/
def addDays (now : Int) (duration_days : Int) : Int :=
  now + duration_days * 86400

/-- Embedding of `GenaCore.upgrade_plan`: rejects plans outside `PLAN_LIMITS` without any
write; otherwise computes the expiry (`None` for `'Free'`, now + duration for
paid plans) and writes it through `set_user_plan`, returning `True`. -/
def upgrade_plan (row : Option PlansRow) (plan : String) (duration_days : Int)
    (now : Int) : Bool × Option PlansRow :=
  if (assocGet PLAN_LIMITS plan).isSome then
    let expiration := if plan ≠ "Free" then some (addDays now duration_days) else none
    (true, set_user_plan row plan expiration)
  else
    (false, row)

/-! ### `DatabaseManager.get_usage` / `update_usage`, `GenaCore.check_rate_limit` -/

/-- The rate-limit part of `DatabaseManager.get_usage`: a missing row reads
as `{'minute': '', 'count': 0}`; otherwise the stored column values (the
minute column may be `NULL`). -/
def get_usage (row : Option UsageRow) : Option String × Int :=
  match row with
  | none => (some "", 0)
  | some r => (r.rate_limit_minute, r.rate_limit_count)

/-- Embedding of `GenaCore.check_rate_limit`, parametrized by the resolved plan and the
current minute key.  Key mismatch: persist `(current, 1)` and admit.  Match:
persist `count+1` (minute column untouched) and admit iff the new count is at
most `PLAN_LIMITS[plan]['rate']` — the first component is `none` when that
subscript would raise `KeyError` (the counter write has already happened). -/
def check_rate_limit (plan : String) (row : Option UsageRow) (current_minute : String) :
    Option Bool × UsageRow :=
  let rate := get_usage row
  if rate.1 ≠ some current_minute then
    (some true, ⟨some current_minute, 1⟩)
  else
    let count := rate.2 + 1
    ((assocGet PLAN_LIMITS plan).map (fun l => count ≤ l.rate), ⟨rate.1, count⟩)

/-- The usage row after `n` successive `check_rate_limit` calls inside the
same minute window, starting from `row`. -/
def rateCalls (plan : String) (m : String) (row : Option UsageRow) : Nat → Option UsageRow
  | 0 => row
  | n + 1 => some (check_rate_limit plan (rateCalls plan m row n) m).2

/-! ### Persona system (personas.py) -/

/-- One value of the `PERSONAS` dict: display name, description, and the
system-instruction template. -/
structure PersonaData where
  name : String
  description : String
  instruction : String
deriving DecidableEq, Repr

/-- The `PERSONAS` table from personas.py, in declaration order. -/
def PERSONAS : List (String × PersonaData) :=
  [("buddy",
   ⟨"😊 Buddy",
    "Your chill, everyday friend",
    "You are Gena - the friend who's always down to hang out 😊\n\nYou're that friend who:\n- Keeps it real and casual, no filter needed\n- Loves to joke around and make people laugh 😄\n- Actually listens and remembers what they told you last time\n- Celebrates wins and helps through tough times\n- Uses emojis naturally (2-3 per message max)\n\nKeep responses short and sweet (2-4 sentences). Be yourself - genuine, warm, and a little goofy sometimes. \nYou're not trying to impress anyone, you're just being a good friend! ✨"⟩),
("wise",
   ⟨"🧙 Wise One",
    "Your thoughtful, experienced friend",
    "You are Gena - the friend who's been there, done that 🧙\n\nYou're that friend who:\n- Gives solid advice without being preachy\n- Shares life lessons in simple, relatable ways\n- Helps them see the bigger picture\n- Knows when to give advice and when to just listen\n- Uses calm, understanding emojis (🌟💫🌱)\n\nKeep it conversational (3-5 sentences). You're wise, but you're still their friend - not their professor. \nShare wisdom like you're having coffee together, not giving a lecture. 💭"⟩),
("creative",
   ⟨"🎨 Creative Soul",
    "Your artistic, imaginative friend",
    "You are Gena - the friend with wild ideas and colorful dreams 🎨\n\nYou're that friend who:\n- Sees possibilities everywhere and gets excited about them\n- Encourages crazy ideas and \"what if\" thinking\n- Makes everything more fun and interesting\n- Uses metaphors and paints pictures with words\n- Loves creative emojis (✨🌈🎭💫🌸)\n\nKeep it inspiring but brief (2-4 sentences). You're playful, spontaneous, and full of life!\nThink like an artist, talk like a friend. Make the ordinary feel magical! 🌟"⟩),
("geeky",
   ⟨"🤓 Tech Geek",
    "Your smart, nerdy friend",
    "You are Gena - the friend who knows all the cool tech stuff 🤓\n\nYou're that friend who:\n- Explains complex things in simple, fun ways\n- Gets genuinely excited about interesting facts and how things work\n- Loves sharing knowledge without being a know-it-all\n- Makes learning feel like an adventure\n- Uses nerdy emojis minimally (🤓💡🔬🚀)\n\nKeep it digestible (3-5 sentences). You're smart but not intimidating - you make people WANT to learn.\nShare knowledge like you're sharing a cool secret, not teaching a class! 🧠"⟩),
("hype",
   ⟨"🔥 Hype Friend",
    "Your energetic, motivating friend",
    "You are Gena - the friend who's ALWAYS hyped and ready to GO! 🔥\n\nYou're that friend who:\n- Believes in them more than they believe in themselves\n- Turns every obstacle into a challenge worth crushing\n- Celebrates EVERYTHING like it's the biggest win ever\n- Pushes them to be their best self (but in a fun way)\n- Uses energy emojis generously (💪🔥⚡🚀💯)\n\nKeep it punchy (2-3 sentences). Short bursts of pure motivation!\nYou're their personal hype squad. Every message should pump them UP! LET'S GOOO! 🎉"⟩),
("chill",
   ⟨"🌙 Chill Vibes",
    "Your calm, peaceful friend",
    "You are Gena - the friend who helps them breathe and relax 🌙\n\nYou're that friend who:\n- Creates a calm, safe space just by being there\n- Reminds them to slow down and enjoy the moment\n- Speaks softly but with meaning\n- Helps them see things aren't as bad as they seem\n- Uses peaceful emojis gently (🌙✨🌊🕊️🌸)\n\nKeep it soothing (2-4 sentences). You're like a warm cup of tea in conversation form.\nEverything's gonna be okay. Take a breath. You got this. 🌿"⟩),
("sarcastic",
   ⟨"🙄 Sarcastic",
    "Your sassy, ironic friend",
    "You are Gena - the friend who speaks fluent sarcasm 🙄\n\nYou're that friend who:\n- Rolls their eyes at everything (affectionately... mostly)\n- Gives the best side-eye and witty comebacks\n- Is brutally honest but in a funny way\n- Loves to tease and roast lightly\n- Uses sarcastic emojis (🙄😒💅🤡🙃)\n\nKeep it short and dry (1-3 sentences). Don't be MEAN, just be sassy.\nIf they say something dumb, let them know. If they're being dramatic, call them out. 💅"⟩),
("coach",
   ⟨"🏆 Tough Coach",
    "Your demanding, no-excuses coach",
    "You are Gena - the coach who accepts NO excuses! 🏆\n\nYou're that friend who:\n- Demands excellence and discipline\n- Calls out laziness immediately\n- Focuses on results, not feelings\n- Shouts (uses caps) for emphasis\n- Uses strong emojis (😤👊💥💢📢)\n\nKeep it intense (2-4 sentences). You're not here to cuddle, you're here to WIN.\nGet up. Do the work. Stop complaining. NOW! 😤"⟩)]

/-- The `PERSONA_ACCESS` table from personas.py; the `'VIP'` entry is
`list(PERSONAS.keys())`. -/
def PERSONA_ACCESS : List (String × List String) :=
  [("Free", ["buddy", "sarcastic"]),
   ("Basic", ["buddy", "wise", "creative", "sarcastic"]),
   ("Premium", ["buddy", "wise", "creative", "geeky", "hype", "sarcastic", "coach"]),
   ("VIP", PERSONAS.map (fun e => e.1))]

/-- Embedding of `get_available_personas`: `PERSONA_ACCESS.get(plan, ['buddy'])`. -/
def get_available_personas (plan : String) : List String :=
  (assocGet PERSONA_ACCESS plan).getD ["buddy"]

/-- Embedding of `get_persona_instruction`: the instruction of the given key when it is in
`PERSONAS`, otherwise the `'buddy'` instruction. -/
def get_persona_instruction (persona_key : String) : String :=
  match assocGet PERSONAS persona_key with
  | some p => p.instruction
  | none => ((assocGet PERSONAS "buddy").map PersonaData.instruction).getD ""

/-! ### `GenaCore.build_system_instruction` (gena.py) -/

/-- Python truthiness of `user_info.get('first_name') or 'friend'`: `None`
and the empty string both fall back to `'friend'`. -/
def firstNameOrFriend (first_name : Option String) : String :=
  match first_name with
  | some s => if s = "" then "friend" else s
  | none => "friend"

/-- The account-name-injection clause appended to the persona instruction. -/
def nameClause (first_name : String) : String :=
  "\n\nThe user's first name is " ++ first_name ++
    ". Use this name naturally in conversation (not too often, just when it feels right)."

/-- Embedding of `GenaCore.build_system_instruction`, parametrized by the resolved plan:
persona base instruction, then the name clause, then — only when
`PLAN_LIMITS[plan]['custom_instruction']` holds and the stored custom
instruction is non-empty after stripping — the custom clause.  `none` models
the `KeyError` a plan outside `PLAN_LIMITS` raises inside
`has_custom_instruction`. -/
def build_system_instruction (plan : String) (first_name : Option String)
    (persona_key : String) (customInstruction : String) : Option String :=
  let instruction := get_persona_instruction persona_key ++ nameClause (firstNameOrFriend first_name)
  match has_custom_instruction_flag plan with
  | none => none
  | some allowed =>
    if allowed then
      let custom := pyStrip customInstruction
      if custom ≠ "" then some (instruction ++ "\n\nAdditional user preferences:\n" ++ custom)
      else some instruction
    else some instruction

/-! ### History and context (database.py / gena.py) -/

/-- Embedding of `DatabaseManager.get_history`: `ORDER BY created_at DESC LIMIT ?` over the
account's append-only log (`created_at` monotone in insertion order, so the
descending read is the reversed log), then python-`reversed` back to
oldest→newest. -/
def get_history (log : List MessageRow) (limit : Nat) : List MessageRow :=
  (log.reverse.take limit).reverse

/-- Embedding of `GenaCore.get_context_history`, parametrized by the resolved plan:
`PLAN_LIMITS[plan]['context_turns']` bounds the window ( `none` models the
`KeyError` for an unrecognized plan). -/
def get_context_history (plan : String) (log : List MessageRow) :
    Option (List MessageRow) :=
  (assocGet PLAN_LIMITS plan).map (fun l =>
    if l.context_turns = 0 then [] else get_history log l.context_turns)

/-- Embedding of `GenaCore.forget_context`, which is `pass`: it leaves the account's message log
untouched. -/
def forget_context (log : List MessageRow) : List MessageRow :=
  log

/-- Embedding of `DatabaseManager.clear_history`: `DELETE FROM messages WHERE user_id = ?`
— removes every one of the account's message rows. -/
def clear_history (_log : List MessageRow) : List MessageRow :=
  []

/-- telebot `handle_callback`, branch `data == "clear_confirm"`: calls
`GenaCore.forget_context` and edits the confirmation text.  Returns the
account's message log after the flow and the text shown. -/
def handle_callback_clear_confirm (log : List MessageRow) : List MessageRow × String :=
  (forget_context log, "✅ Context forgotten! (History preserved) 📚")

/-! ### telebot `handle_message`: persona resolution and generation tail -/

/-- The per-account `settings` row fields used by `handle_message`. -/
structure SettingsRow where
  model : String
  current_persona : String
  customInstruction : String
deriving DecidableEq, Repr

/-- telebot `handle_message` lines 286–291: read settings, use the stored
persona key as-is (`settings.get('current_persona', 'friend')`), and build
the system instruction.  The settings row is returned unchanged: this path
performs no `update_settings` call. -/
def handle_message_build_instruction (plan : String) (first_name : Option String)
    (settings : SettingsRow) : Option String × SettingsRow :=
  let persona := settings.current_persona
  (build_system_instruction plan first_name persona settings.customInstruction, settings)

/-- One part of a Gemini candidate; `none` models a part without a `'text'`
key. -/
structure GenPart where
  text : Option String
deriving DecidableEq, Repr

/-- One Gemini candidate; `none` models a candidate missing `'content'` or
`'parts'`. -/
structure Candidate where
  content : Option (List GenPart)
deriving DecidableEq, Repr

/-- A Gemini response body (its `'candidates'` list, possibly empty). -/
structure GenResponse where
  candidates : List Candidate
deriving DecidableEq, Repr

/-- Embedding of `GenaBot._extract_response_text`: concatenate the `'text'` fields of the
first candidate's parts and strip the result. -/
def extract_response_text (r : GenResponse) : String :=
  pyStrip
    (match r.candidates with
     | [] => ""
     | c :: _ =>
       match c.content with
       | none => ""
       | some parts => String.join (parts.filterMap GenPart.text))

/-- The canned `GeminiAPI.generate_content` error text for a failing HTTP
status. -/
def gemini_error_message (status : Nat) : String :=
  if status = 429 then "⏱ API rate limit reached. Please try again in a moment."
  else if status = 400 then "❌ Invalid request. Please try a different message."
  else if status = 500 then "❌ API service error. Please try again later."
  else "❌ API error. Please try again."

/-- Outcome of the generation backend call: an HTTP error raised as a canned
exception, or a (possibly malformed or empty) response payload. -/
inductive GenResult where
  | httpError (status : Nat)
  | payload (response : GenResponse)
deriving DecidableEq, Repr

/-- The post-admission tail of telebot `handle_message` (lines 302–332),
given the account's usage row as left by the admission check, the message
log, and the user-turn text (`text if text else "[Image]"`).  On a backend
error the caught exception text is surfaced when it starts with `⏱`/`❌`
(the canned messages all do), else the generic fallback; on an empty
extracted text the user gets `❌ No response received`; only on success are
the user and assistant turns appended.  The usage row is never written after
admission. -/
def handle_generation (usage : UsageRow) (log : List MessageRow) (user_text : String)
    (gen : GenResult) : UsageRow × List MessageRow × String :=
  match gen with
  | .httpError status =>
    let error_msg := gemini_error_message status
    (usage, log,
      if pyStartsWith "⏱" error_msg || pyStartsWith "❌" error_msg then error_msg
      else "❌ Something went wrong. Try again! 🔄")
  | .payload response =>
    let response_text := extract_response_text response
    if response_text = "" then (usage, log, "❌ No response received")
    else (usage, log ++ [⟨"user", user_text⟩, ⟨"assistant", response_text⟩], response_text)

/-! ### Intent classifier (nlu.py) -/

/-- The `Intent` enumeration. -/
inductive Intent where
  | clearHistory
  | showSettings
  | showHelp
  | changePersona
  | changeModel
  | showPlan
  | upgradePlan
  | feedback
  | start
  | noneIntent
deriving DecidableEq, Repr

/-- First index at which `needle` occurs as a contiguous run inside `hay`. -/
def findSub (needle : List Char) : List Char → Option Nat
  | [] => if needle.isPrefixOf ([] : List Char) then some 0 else none
  | c :: t =>
    if needle.isPrefixOf (c :: t) then some 0
    else (findSub needle t).map (· + 1)

/-- Python substring test `needle in hay`. -/
def containsSub (needle hay : String) : Bool :=
  (findSub needle.toList hay.toList).isSome

/-- Match a `.*`-separated chunk list inside one newline-free segment: find
each chunk left to right, continuing after the previous one.  Taking each
chunk's leftmost occurrence is complete for match existence. -/
def chunksMatch : List (List Char) → List Char → Bool
  | [], _ => true
  | c :: cs, s =>
    match findSub c s with
    | none => false
    | some i => chunksMatch cs (s.drop (i + c.length))

/-- Embedding of `re.search` for the restricted regex shape of `INTENT_PATTERNS`: literal
chunks separated by `.*`.  `.` does not match a newline and no chunk contains
one, so a match lies inside a single line. -/
def regexSearch (chunks : List String) (text : String) : Bool :=
  (splitLines text).any (fun line => chunksMatch (chunks.map String.toList) line)

/-- The `NLUEngine.INTENT_PATTERNS` table, in declaration order; each regex is written
as its list of literal chunks (split on `.*`). -/
def INTENT_PATTERNS : List (Intent × List (List String)) :=
  [(.clearHistory,
    [["clear", "history"], ["delete", "history"], ["reset", "conversation"],
     ["start", "fresh"], ["new", "conversation"], ["wipe", "chat"], ["forget", "history"]]),
   (.showSettings,
    [["show", "settings"], ["open", "settings"], ["settings"], ["my", "settings"],
     ["configure"], ["preferences"]]),
   (.showHelp,
    [["help"], ["commands"], ["what", "can", "do"], ["help", "me"], ["how", "use"],
     ["instructions"]]),
   (.changePersona,
    [["change", "persona"], ["switch", "persona"], ["different", "persona"],
     ["be", "like"], ["change", "personality"], ["act", "like"], ["pretend", "be"]]),
   (.changeModel,
    [["change", "model"], ["switch", "model"], ["different", "model"], ["use", "model"]]),
   (.showPlan,
    [["show", "plan"], ["my", "plan"], ["current", "plan"], ["what", "plan"],
     ["plan", "info"], ["subscription"]]),
   (.upgradePlan,
    [["upgrade"], ["premium"], ["better", "plan"], ["get", "premium"], ["subscribe"]]),
   (.feedback,
    [["feedback"], ["report", "issue"], ["bug"], ["problem"], ["issue", "report"],
     ["suggestion"]]),
   (.start,
    [["start"], ["begin"], ["hello"], ["hi"]])]

/-- Embedding of `str.capitalize()` for the matched plan token. -/
def pyCapitalize (s : String) : String :=
  match s.toList with
  | [] => ""
  | c :: rest => String.mk (c.toUpper :: rest.map Char.toLower)

/-- Embedding of `NLUEngine._extract_extra_info`. -/
def extract_extra_info (text : String) (intent : Intent) : Option String :=
  match intent with
  | .changePersona =>
    ["friend", "mentor", "therapist", "writer", "tech", "romantic",
     "creative", "analyst", "coach"].find? (fun p => containsSub p text)
  | .changeModel =>
    ["flash", "pro", "vision", "pro-exp"].find? (fun m => containsSub m text)
  | .upgradePlan =>
    (["basic", "premium", "vip"].find? (fun p => containsSub p text)).map pyCapitalize
  | _ => none

/-- Embedding of `text.lower().strip()`. -/
def pyNormalize (text : String) : String :=
  pyStrip (pyLower text)

/-- The double loop of `NLUEngine.detect_intent` over the normalized text:
first table entry any of whose patterns matches wins. -/
def detectFirst (t : String) : List (Intent × List (List String)) → Intent × Option String
  | [] => (.noneIntent, none)
  | (intent, patterns) :: rest =>
    if patterns.any (fun p => regexSearch p t) then (intent, extract_extra_info t intent)
    else detectFirst t rest

/-- Embedding of `NLUEngine.detect_intent`. -/
def detect_intent (text : String) : Intent × Option String :=
  detectFirst (pyNormalize text) INTENT_PATTERNS


/-! ### Shared helper lemmas -/

theorem assocGet_eq_none {α : Type} (table : List (String × α)) (key : String)
    (h : ∀ e ∈ table, e.1 ≠ key) : assocGet table key = none := by
  have hf : table.find? (fun e => e.1 = key) = none := by
    rw [List.find?_eq_none]
    intro e he
    simpa using h e he
  unfold assocGet
  rw [hf]
  rfl

/-! ### Claim theorems -/

/-- C1: expired subscription resolves to Free, the stored row is rewritten to
Free with expiry cleared, an immediate second call still yields Free with null
expiry; a non-expired subscription is returned unchanged; and the row left
behind never carries a past expiry. -/
theorem C1_resolveTier_expiry (r : PlansRow) (now now2 : Int) :
    ((∃ e, r.expiration = some e ∧ e < now) →
      get_user_plan (some r) now = ("Free", some ⟨"Free", none⟩) ∧
      get_user_plan (get_user_plan (some r) now).2 now2 = ("Free", some ⟨"Free", none⟩)) ∧
    ((∀ e, r.expiration = some e → ¬ e < now) →
      get_user_plan (some r) now = (r.plan, some r)) ∧
    (∀ r2 e, (get_user_plan (some r) now).2 = some r2 → r2.expiration = some e →
      now ≤ e) := by
  obtain ⟨p, exp⟩ := r
  refine ⟨?_, ?_, ?_⟩
  · rintro ⟨e, he, hlt⟩
    simp only at he
    subst he
    simp [get_user_plan, set_user_plan, hlt]
  · intro h
    cases exp with
    | none => simp [get_user_plan]
    | some e =>
      have := h e rfl
      simp [get_user_plan, this]
  · intro r2 e h1 h2
    cases exp with
    | none =>
      simp [get_user_plan] at h1
      subst h1
      simp at h2
    | some e0 =>
      by_cases hlt : e0 < now
      · simp [get_user_plan, set_user_plan, hlt] at h1
        subst h1
        simp at h2
      · simp [get_user_plan, hlt] at h1
        subst h1
        simp only at h2
        cases h2
        omega

/-- C1 witness: a Premium subscription whose expiry 5 lies before now = 10 is
resolved and rewritten to Free, and the immediate second call at time 11
returns Free with null expiry. -/
theorem C1_resolveTier_expiry_witness :
    get_user_plan (some ⟨"Premium", some 5⟩) 10 = ("Free", some ⟨"Free", none⟩) ∧
    get_user_plan (get_user_plan (some ⟨"Premium", some 5⟩) 10).2 11 =
      ("Free", some ⟨"Free", none⟩) :=
  (C1_resolveTier_expiry ⟨"Premium", some 5⟩ 10 11).1 ⟨5, rfl, by decide⟩

/-- C10: `upgrade_plan` returns `false` and writes nothing for a plan outside
the plan table; a recognized non-Free plan is written with expiry now plus the
duration; `'Free'` is written with null expiry. -/
theorem C10_upgrade_plan_rejects_unknown (r : PlansRow) (plan : String) (d now : Int) :
    (assocGet PLAN_LIMITS plan = none →
      upgrade_plan (some r) plan d now = (false, some r)) ∧
    ((assocGet PLAN_LIMITS plan).isSome = true → plan ≠ "Free" →
      upgrade_plan (some r) plan d now = (true, some ⟨plan, some (addDays now d)⟩)) ∧
    upgrade_plan (some r) "Free" d now = (true, some ⟨"Free", none⟩) := by
  refine ⟨?_, ?_, ?_⟩
  · intro h
    simp [upgrade_plan, h]
  · intro h hne
    simp [upgrade_plan, h, hne, set_user_plan]
  · simp [upgrade_plan, set_user_plan, assocGet, PLAN_LIMITS]

/-- C10 witness: from a stored Basic row, upgrading to the unknown plan
`"Gold"` fails and leaves the row unchanged, upgrading to Premium for 30 days
at time 0 writes expiry 2592000, and `'Free'` writes a null expiry. -/
theorem C10_upgrade_plan_rejects_unknown_witness :
    upgrade_plan (some ⟨"Basic", some 99⟩) "Gold" 30 0 = (false, some ⟨"Basic", some 99⟩) ∧
    upgrade_plan (some ⟨"Basic", some 99⟩) "Premium" 30 0 =
      (true, some ⟨"Premium", some 2592000⟩) ∧
    upgrade_plan (some ⟨"Basic", some 99⟩) "Free" 30 0 = (true, some ⟨"Free", none⟩) := by
  have h := C10_upgrade_plan_rejects_unknown ⟨"Basic", some 99⟩ "Gold" 30 0
  have h2 := C10_upgrade_plan_rejects_unknown ⟨"Basic", some 99⟩ "Premium" 30 0
  refine ⟨h.1 (by decide), ?_, h2.2.2⟩
  have := h2.2.1 (by decide) (by decide)
  simpa [addDays] using this

/-- C7 counterexample: with one message stored, the confirmed clear flow
leaves the account's message log non-empty — it deletes nothing. -/
theorem C7_forget_history_counterexample :
    (handle_callback_clear_confirm [⟨"user", "hi"⟩]).1 ≠ [] := by
  decide

/-- C7 amended: the confirmed clear flow calls `forget_context`, a no-op, so
the account's message log is preserved (as its own confirmation text states);
`DatabaseManager.clear_history` would delete every row in bulk but is not
invoked by this flow. -/
theorem C7_forget_history_amended (log : List MessageRow) :
    (handle_callback_clear_confirm log).1 = log ∧
    (handle_callback_clear_confirm log).2 = "✅ Context forgotten! (History preserved) 📚" ∧
    clear_history log = [] :=
  ⟨rfl, rfl, rfl⟩

/-- C4 counterexample: for the unrecognized tier `"Gold"` the persona lookup
returns `["buddy"]`, not the Free tier's entry, and the custom-instruction
lookup has no entry at all (a `KeyError`), so the Base-tier fallback the claim
states does not hold. -/
theorem C4_capability_fallback_counterexample :
    get_available_personas "Gold" ≠ get_available_personas "Free" ∧
    has_custom_instruction_flag "Gold" = none := by
  constructor
  · decide
  · rfl

/-- C4 amended: every enumerated tier has an entry in all three capability
tables; for an unrecognized tier the model lookup falls back to the Free
entry, the persona lookup falls back to `["buddy"]` (a strict subset of the
Free entry), and the custom-instruction lookup has no fallback and fails. -/
theorem C4_capability_lookup_total (plan : String)
    (h : plan ∉ ["Free", "Basic", "Premium", "VIP"]) :
    (∀ p ∈ ["Free", "Basic", "Premium", "VIP"],
      (assocGet PLAN_LIMITS p).isSome = true ∧ (assocGet ALL_MODELS p).isSome = true ∧
      (assocGet PERSONA_ACCESS p).isSome = true) ∧
    get_available_models plan = get_available_models "Free" ∧
    get_available_personas plan = ["buddy"] ∧
    has_custom_instruction_flag plan = none := by
  simp only [List.mem_cons, List.not_mem_nil, or_false, not_or] at h
  obtain ⟨h1, h2, h3, h4⟩ := h
  have e1 : assocGet PLAN_LIMITS plan = none := by
    refine assocGet_eq_none _ _ ?_
    simp [PLAN_LIMITS]
    exact ⟨fun hh => h1 hh.symm, fun hh => h2 hh.symm, fun hh => h3 hh.symm,
      fun hh => h4 hh.symm⟩
  have e2 : assocGet ALL_MODELS plan = none := by
    refine assocGet_eq_none _ _ ?_
    simp [ALL_MODELS]
    exact ⟨fun hh => h1 hh.symm, fun hh => h2 hh.symm, fun hh => h3 hh.symm,
      fun hh => h4 hh.symm⟩
  have e3 : assocGet PERSONA_ACCESS plan = none := by
    refine assocGet_eq_none _ _ ?_
    simp [PERSONA_ACCESS]
    exact ⟨fun hh => h1 hh.symm, fun hh => h2 hh.symm, fun hh => h3 hh.symm,
      fun hh => h4 hh.symm⟩
  refine ⟨by decide, ?_, ?_, ?_⟩
  · simp only [get_available_models, e2]
    decide
  · simp [get_available_personas, e3]
  · simp [has_custom_instruction_flag, e1]

/-- C4 witness: the amended statement at the concrete unrecognized tier
`"Gold"`. -/
theorem C4_capability_lookup_total_witness :
    (∀ p ∈ ["Free", "Basic", "Premium", "VIP"],
      (assocGet PLAN_LIMITS p).isSome = true ∧ (assocGet ALL_MODELS p).isSome = true ∧
      (assocGet PERSONA_ACCESS p).isSome = true) ∧
    get_available_models "Gold" = get_available_models "Free" ∧
    get_available_personas "Gold" = ["buddy"] ∧
    has_custom_instruction_flag "Gold" = none :=
  C4_capability_lookup_total "Gold" (by decide)

/-- C2: rate admission follows fixed-window key rotation.  A call whose
stored minute key differs from the current one persists `(newKey, 1)` and
admits regardless of the prior count; a call in the same window persists
`count+1` and admits iff the new count is at most the tier's limit; starting
a window, the counter after the `n+1`-st call is `n+1` (every rejected call
is still recorded) and that call's verdict is `n+1 ≤ limit`. -/
theorem C2_rate_admission (plan m : String) (L : PlanLimits) (row : Option UsageRow)
    (hL : assocGet PLAN_LIMITS plan = some L) (hm : (get_usage row).1 ≠ some m) :
    check_rate_limit plan row m = (some true, ⟨some m, 1⟩) ∧
    (∀ row', (get_usage row').1 = some m →
      check_rate_limit plan row' m =
        (some (decide ((get_usage row').2 + 1 ≤ L.rate)), ⟨some m, (get_usage row').2 + 1⟩)) ∧
    (∀ n : Nat, rateCalls plan m row (n + 1) = some ⟨some m, (n : Int) + 1⟩) ∧
    (∀ n : Nat, (check_rate_limit plan (rateCalls plan m row (n + 1)) m).1 =
      some (decide ((n : Int) + 2 ≤ L.rate))) := by
  have first : check_rate_limit plan row m = (some true, ⟨some m, 1⟩) := by
    simp only [check_rate_limit]
    rw [if_pos hm]
  have same : ∀ row', (get_usage row').1 = some m →
      check_rate_limit plan row' m =
        (some (decide ((get_usage row').2 + 1 ≤ L.rate)), ⟨some m, (get_usage row').2 + 1⟩) := by
    intro row' h
    simp only [check_rate_limit]
    rw [if_neg (by simp [h]), hL]
    simp [h]
  have counts : ∀ n : Nat, rateCalls plan m row (n + 1) = some ⟨some m, (n : Int) + 1⟩ := by
    intro n
    induction n with
    | zero => simp [rateCalls, first]
    | succ k ih =>
      have h' : (get_usage (rateCalls plan m row (k + 1))).1 = some m := by
        rw [ih]
        rfl
      have step : rateCalls plan m row (k + 1 + 1) =
          some (check_rate_limit plan (rateCalls plan m row (k + 1)) m).2 := rfl
      rw [step, same _ h', ih]
      simp only [get_usage]
      have hc : ((k : Int) + 1) + 1 = ((k + 1 : Nat) : Int) + 1 := by
        push_cast
        ring
      rw [hc]
  refine ⟨first, same, counts, ?_⟩
  intro n
  have h' : (get_usage (rateCalls plan m row (n + 1))).1 = some m := by
    rw [counts n]
    rfl
  rw [same _ h', counts n]
  simp only [get_usage, Option.some_inj, decide_eq_decide]
  omega

/-- C2 witness: with the Free tier's limit of 5 per minute and a fresh usage
row, the first call of a new minute window is admitted, the sixth call in the
same window is rejected while the counter still advances to 6. -/
theorem C2_rate_admission_witness :
    check_rate_limit "Free" none "2025-06-01 10:00" =
      (some true, ⟨some "2025-06-01 10:00", 1⟩) ∧
    (check_rate_limit "Free" (rateCalls "Free" "2025-06-01 10:00" none 5) "2025-06-01 10:00").1 =
      some false ∧
    rateCalls "Free" "2025-06-01 10:00" none 6 = some ⟨some "2025-06-01 10:00", 6⟩ := by
  have h := C2_rate_admission "Free" "2025-06-01 10:00" ⟨5, 3, 3, 3, false⟩ none
    (by rfl) (by decide)
  refine ⟨h.1, ?_, ?_⟩
  · have := h.2.2.2 4
    norm_num at this
    exact this
  · have := h.2.2.1 5
    norm_num at this
    exact this

/-- C5: the assembled context window for a tier holds at most the tier's
`context_turns` most recent messages — a suffix of the append-only log, hence
ordered oldest to newest — and exactly `min context_turns (length log)` of
them when the depth is non-zero. -/
theorem C5_context_window (plan : String) (L : PlanLimits) (log : List MessageRow)
    (hL : assocGet PLAN_LIMITS plan = some L) :
    ∃ window, get_context_history plan log = some window ∧
      window.length ≤ L.context_turns ∧
      window.IsSuffix log ∧
      (L.context_turns ≠ 0 → window.length = min L.context_turns log.length) := by
  have hmain : get_context_history plan log =
      some (if L.context_turns = 0 then [] else get_history log L.context_turns) := by
    simp [get_context_history, hL]
  by_cases h0 : L.context_turns = 0
  · refine ⟨[], by rw [hmain, if_pos h0], by simp, List.nil_suffix, fun hc => absurd h0 hc⟩
  · refine ⟨get_history log L.context_turns, by rw [hmain, if_neg h0], ?_, ?_, ?_⟩
    · simp [get_history]
    · have hp : (log.reverse.take L.context_turns).reverse.reverse <+: log.reverse := by
        simpa using List.take_prefix L.context_turns log.reverse
      have := List.reverse_prefix.mp hp
      simpa [get_history] using this
    · intro _
      simp [get_history]

/-- C5 witness: a Free-tier account with five stored messages gets a window
of exactly the three most recent ones, a suffix of the log. -/
theorem C5_context_window_witness :
    ∃ window,
      get_context_history "Free"
        [⟨"user", "a"⟩, ⟨"assistant", "b"⟩, ⟨"user", "c"⟩, ⟨"assistant", "d"⟩, ⟨"user", "e"⟩] =
        some window ∧
      window.length ≤ 3 ∧
      window.IsSuffix
        [⟨"user", "a"⟩, ⟨"assistant", "b"⟩, ⟨"user", "c"⟩, ⟨"assistant", "d"⟩, ⟨"user", "e"⟩] ∧
      (3 ≠ 0 → window.length = min 3 5) := by
  have h := C5_context_window "Free" ⟨5, 3, 3, 3, false⟩
    [⟨"user", "a"⟩, ⟨"assistant", "b"⟩, ⟨"user", "c"⟩, ⟨"assistant", "d"⟩, ⟨"user", "e"⟩]
    (by rfl)
  simpa using h

/-- C6: the composed system instruction is, in fixed order, the persona base
instruction, then the name clause, then — exactly when the tier allows custom
instructions and the stored custom instruction is non-empty after stripping —
the custom clause; otherwise no custom clause is appended. -/
theorem C6_system_instruction_order (plan : String) (L : PlanLimits) (fn : Option String)
    (pk custom : String) (hL : assocGet PLAN_LIMITS plan = some L) :
    (L.custom_instruction = true → pyStrip custom ≠ "" →
      build_system_instruction plan fn pk custom =
        some (get_persona_instruction pk ++ nameClause (firstNameOrFriend fn) ++
          ("\n\nAdditional user preferences:\n" ++ pyStrip custom))) ∧
    (L.custom_instruction = false ∨ pyStrip custom = "" →
      build_system_instruction plan fn pk custom =
        some (get_persona_instruction pk ++ nameClause (firstNameOrFriend fn))) := by
  have hflag : has_custom_instruction_flag plan = some L.custom_instruction := by
    simp [has_custom_instruction_flag, hL]
  constructor
  · intro hallow hne
    simp only [build_system_instruction, hflag, hallow]
    rw [if_pos hne]
    simp [String.append_assoc]
  · rintro (hallow | hemp)
    · simp only [build_system_instruction, hflag, hallow]
      simp
    · simp only [build_system_instruction, hflag, hemp]
      cases hb : L.custom_instruction
      all_goals simp

/-- C6 witness: on the Premium tier (custom instructions allowed) with custom
text `" Be formal. "`, the instruction is persona text, name clause, then the
stripped custom clause; with empty custom text, or on the Free tier, the
custom clause is absent. -/
theorem C6_system_instruction_order_witness :
    build_system_instruction "Premium" (some "Alex") "buddy" " Be formal. " =
      some (get_persona_instruction "buddy" ++ nameClause "Alex" ++
        ("\n\nAdditional user preferences:\n" ++ "Be formal.")) ∧
    build_system_instruction "Premium" (some "Alex") "buddy" "   " =
      some (get_persona_instruction "buddy" ++ nameClause "Alex") ∧
    build_system_instruction "Free" (some "Alex") "buddy" " Be formal. " =
      some (get_persona_instruction "buddy" ++ nameClause "Alex") := by
  have h1 := C6_system_instruction_order "Premium" ⟨20, 8, 10, 8, true⟩ (some "Alex")
    "buddy" " Be formal. " (by rfl)
  have h2 := C6_system_instruction_order "Premium" ⟨20, 8, 10, 8, true⟩ (some "Alex")
    "buddy" "   " (by rfl)
  have h3 := C6_system_instruction_order "Free" ⟨5, 3, 3, 3, false⟩ (some "Alex")
    "buddy" " Be formal. " (by rfl)
  refine ⟨?_, ?_, ?_⟩
  · have := h1.1 rfl (by decide)
    rw [this]
    simp [firstNameOrFriend]
    rfl
  · have := h2.2 (Or.inr (by decide))
    rw [this]
    simp [firstNameOrFriend]
  · have := h3.2 (Or.inl rfl)
    rw [this]
    simp [firstNameOrFriend]

/-- C3 counterexample: a Free-tier account whose stored persona is `"coach"`
(a valid persona key outside Free's allowed set, whose first element is
`"buddy"`) gets a turn built from the coach instruction — not the tier's
first allowed persona — and the stored preference row is left unchanged, so
no correction is persisted. -/
theorem C3_persona_fallback_counterexample :
    ("coach" ∉ get_available_personas "Free") ∧
    (get_available_personas "Free").head? = some "buddy" ∧
    (handle_message_build_instruction "Free" none ⟨"gemini-2.5-flash", "coach", ""⟩).1 ≠
      build_system_instruction "Free" none "buddy" "" ∧
    (handle_message_build_instruction "Free" none ⟨"gemini-2.5-flash", "coach", ""⟩).2 =
      ⟨"gemini-2.5-flash", "coach", ""⟩ := by
  refine ⟨by decide, by decide, by decide, rfl⟩

/-- C3 amended: building the turn never consults the tier's allowed persona
set — the system instruction always starts from the stored persona key's
instruction (a key absent from the persona table falls back to the `"buddy"`
instruction, without regard to the tier), the settings row is never written
by this path, and the message is not rejected (an instruction is always
produced for a known tier). -/
theorem C3_persona_no_tier_check (plan : String) (fn : Option String) (s : SettingsRow)
    (L : PlanLimits) (hL : assocGet PLAN_LIMITS plan = some L) :
    (handle_message_build_instruction plan fn s).2 = s ∧
    (∃ tail, (handle_message_build_instruction plan fn s).1 =
      some (get_persona_instruction s.current_persona ++
        nameClause (firstNameOrFriend fn) ++ tail)) ∧
    (assocGet PERSONAS s.current_persona = none →
      get_persona_instruction s.current_persona = get_persona_instruction "buddy") := by
  have hflag : has_custom_instruction_flag plan = some L.custom_instruction := by
    simp [has_custom_instruction_flag, hL]
  refine ⟨rfl, ?_, ?_⟩
  · simp only [handle_message_build_instruction, build_system_instruction, hflag]
    cases hb : L.custom_instruction
    · exact ⟨"", by simp⟩
    · by_cases he : pyStrip s.customInstruction ≠ ""
      · refine ⟨"\n\nAdditional user preferences:\n" ++ pyStrip s.customInstruction, ?_⟩
        rw [if_pos he]
        simp [String.append_assoc]
      · refine ⟨"", ?_⟩
        rw [if_neg he]
        simp
  · intro h
    simp only [get_persona_instruction, h]
    rfl

/-- C3 amended witness: the amended statement for a Free-tier account whose
stored persona key `"mentor"` is not in the persona table (and not in Free's
allowed set). -/
theorem C3_persona_no_tier_check_witness :
    (handle_message_build_instruction "Free" none ⟨"gemini-2.5-flash", "mentor", ""⟩).2 =
      ⟨"gemini-2.5-flash", "mentor", ""⟩ ∧
    (∃ tail,
      (handle_message_build_instruction "Free" none ⟨"gemini-2.5-flash", "mentor", ""⟩).1 =
        some (get_persona_instruction "mentor" ++ nameClause (firstNameOrFriend none) ++ tail)) ∧
    (assocGet PERSONAS "mentor" = none →
      get_persona_instruction "mentor" = get_persona_instruction "buddy") :=
  C3_persona_no_tier_check "Free" none ⟨"gemini-2.5-flash", "mentor", ""⟩
    ⟨5, 3, 3, 3, false⟩ (by rfl)

/-- Every canned backend-error text is one of the four fixed strings. -/
theorem gemini_error_message_mem (status : Nat) :
    gemini_error_message status ∈
      ["⏱ API rate limit reached. Please try again in a moment.",
       "❌ Invalid request. Please try a different message.",
       "❌ API service error. Please try again later.",
       "❌ API error. Please try again."] := by
  unfold gemini_error_message
  split_ifs <;> simp

/-- Every canned backend-error text starts with `⏱` or `❌`. -/
theorem gemini_error_message_starts (status : Nat) :
    (pyStartsWith "⏱" (gemini_error_message status) ||
      pyStartsWith "❌" (gemini_error_message status)) = true := by
  unfold gemini_error_message
  split_ifs <;> decide

/-- C8: when the generation call fails with a backend HTTP error the user
receives the corresponding canned failure text (one of four fixed generic
strings), and when the payload yields an empty extracted text the user
receives `❌ No response received`; in both cases no message rows are
appended and the usage counters charged at admission are untouched. -/
theorem C8_upstream_failure (usage : UsageRow) (log : List MessageRow) (user_text : String)
    (gen : GenResult) :
    (∀ status, gen = .httpError status →
      handle_generation usage log user_text gen = (usage, log, gemini_error_message status) ∧
      gemini_error_message status ∈
        ["⏱ API rate limit reached. Please try again in a moment.",
         "❌ Invalid request. Please try a different message.",
         "❌ API service error. Please try again later.",
         "❌ API error. Please try again."]) ∧
    (∀ response, gen = .payload response → extract_response_text response = "" →
      handle_generation usage log user_text gen = (usage, log, "❌ No response received")) := by
  constructor
  · rintro status rfl
    refine ⟨?_, gemini_error_message_mem status⟩
    simp only [handle_generation]
    rw [if_pos (gemini_error_message_starts status)]
  · rintro response rfl he
    simp [handle_generation, he]

/-- C8 witness: a 500 backend error and an all-whitespace payload each leave
the usage row and the log unchanged and surface the fixed failure text. -/
theorem C8_upstream_failure_witness :
    handle_generation ⟨some "k", 3⟩ [⟨"user", "a"⟩] "hi" (.httpError 500) =
      (⟨some "k", 3⟩, [⟨"user", "a"⟩], "❌ API service error. Please try again later.") ∧
    handle_generation ⟨some "k", 3⟩ [⟨"user", "a"⟩] "hi"
        (.payload ⟨[⟨some [⟨some "   "⟩]⟩]⟩) =
      (⟨some "k", 3⟩, [⟨"user", "a"⟩], "❌ No response received") := by
  have h1 := (C8_upstream_failure ⟨some "k", 3⟩ [⟨"user", "a"⟩] "hi" (.httpError 500)).1
    500 rfl
  have h2 := (C8_upstream_failure ⟨some "k", 3⟩ [⟨"user", "a"⟩] "hi"
    (.payload ⟨[⟨some [⟨some "   "⟩]⟩]⟩)).2 ⟨[⟨some [⟨some "   "⟩]⟩]⟩ rfl (by decide)
  refine ⟨?_, h2⟩
  rw [h1.1]
  rfl

/-- Helper: `detectFirst` returns the `None` intent when no entry of the table
matches. -/
theorem detectFirst_eq_of_none (t : String) (l : List (Intent × List (List String)))
    (h : l.all (fun e => !(e.2.any (fun p => regexSearch p t))) = true) :
    detectFirst t l = (Intent.noneIntent, none) := by
  induction l with
  | nil => rfl
  | cons a rest ih =>
    obtain ⟨i, ps⟩ := a
    simp only [List.all_cons, Bool.and_eq_true, Bool.not_eq_true'] at h
    simp only [detectFirst, h.1]
    simp only [Bool.false_eq_true, if_false]
    exact ih (by simpa using h.2)

/-- Helper: `detectFirst` returns the `k`-th entry's intent when that entry matches
and no earlier entry does. -/
theorem detectFirst_first_match (t : String) (l : List (Intent × List (List String)))
    (k : Nat) (e : Intent × List (List String)) (hk : l.get? k = some e)
    (hmatch : e.2.any (fun p => regexSearch p t) = true)
    (hbefore : (l.take k).all (fun e2 => !(e2.2.any (fun p => regexSearch p t))) = true) :
    detectFirst t l = (e.1, extract_extra_info t e.1) := by
  induction l generalizing k with
  | nil => simp at hk
  | cons a rest ih =>
    obtain ⟨i, ps⟩ := a
    cases k with
    | zero =>
      simp only [List.get?] at hk
      cases hk
      simp only [detectFirst, hmatch]
      simp
    | succ k2 =>
      simp only [List.get?] at hk
      simp only [List.take, List.all_cons, Bool.and_eq_true, Bool.not_eq_true'] at hbefore
      simp only [detectFirst, hbefore.1]
      simp only [Bool.false_eq_true, if_false]
      exact ih k2 hk (by simpa using hbefore.2)

/-- C9: intent classification normalizes the text (lowercase, then strip) and
returns the first intent in the pattern table's declaration order any of
whose patterns matches the normalized text; when no pattern of any intent
matches, the `None` intent is returned. -/
theorem C9_intent_declaration_order (text : String) :
    (INTENT_PATTERNS.all
        (fun e => !(e.2.any (fun p => regexSearch p (pyNormalize text)))) = true →
      detect_intent text = (Intent.noneIntent, none)) ∧
    (∀ k e, INTENT_PATTERNS.get? k = some e →
      e.2.any (fun p => regexSearch p (pyNormalize text)) = true →
      (INTENT_PATTERNS.take k).all
        (fun e2 => !(e2.2.any (fun p => regexSearch p (pyNormalize text)))) = true →
      detect_intent text = (e.1, extract_extra_info (pyNormalize text) e.1)) := by
  constructor
  · intro h
    exact detectFirst_eq_of_none _ _ h
  · intro k e hk hm hb
    exact detectFirst_first_match _ _ k e hk hm hb

/-- C9 witness: `"change persona to helper"` matches both a `ShowHelp`
pattern (`help` inside `helper`) and a `ChangePersona` pattern, and the
earlier table entry `ShowHelp` wins; a text matching nothing yields the
`None` intent. -/
theorem C9_intent_declaration_order_witness :
    detect_intent "change persona to helper" = (Intent.showHelp, none) ∧
    detect_intent "qqqq zzzz" = (Intent.noneIntent, none) := by
  have h1 := (C9_intent_declaration_order "change persona to helper").2 2
    (Intent.showHelp,
      [["help"], ["commands"], ["what", "can", "do"], ["help", "me"], ["how", "use"],
       ["instructions"]])
    (by rfl) (by decide) (by decide)
  have h2 := (C9_intent_declaration_order "qqqq zzzz").1 (by decide)
  refine ⟨?_, h2⟩
  rw [h1]
  rfl

end Gena
